import Mathlib

/-!
A verification development for the `oxide-auth` axum example: the OAuth2
Authorization Code Grant demonstration consisting of an authorization server,
a client, and a resource server. The definitions below are shallow embeddings
of the Rust source (`client.rs`, `authorization_server.rs`,
`resource_server.rs`); HTTP transport, HTML rendering and logging are elided,
external network calls are passed in as explicit function arguments, and the
mutex-guarded stores become explicit state passing where every operation is
one atomic step.
-/

namespace OxideAuth

/-! ## Query parameters

Requests carry url-encoded parameters. `unique_value` follows the
`QueryParameter::unique_value` contract of oxide-auth's normalized parameters:
it yields the value exactly when the key occurs exactly once. -/

abbrev Params := List (String × String)

def unique_value (params : Params) (key : String) : Option String :=
  match params.filter (fun kv => kv.1 = key) with
  | [kv] => some kv.2
  | _ => none

/-! ## Client-side state (`client.rs`)

`ClientTokState` embeds `ClientStateInner`: the three mutex-guarded option
fields (`code_grant_state`, `access_token`, `refresh_token`); the CSRF token
and the oauth2 tokens are represented by their secret strings. -/

structure ClientTokState where
  code_grant_state : Option String
  access_token : Option String
  refresh_token : Option String
deriving DecidableEq

/-- The body oauth2 hands back from a successful token-endpoint exchange:
an access token and, optionally, a refresh token. -/
structure TokenResp where
  access_token : String
  refresh_token : Option String
deriving DecidableEq

/-- `RedirectQuery` from `client.rs`: the query string of the callback
request to the client redirect endpoint. -/
structure RedirectQuery where
  error : Option String
  error_description : Option String
  code : Option String
  state : Option String
deriving DecidableEq

inductive RedirectResp where
  | errorPage (msg : String)
  | redirectHome
deriving DecidableEq

/-- Embedding of `Client::get_redirect` (client.rs lines 227-303). The token
exchange is an explicit argument `exchange : String → Except String TokenResp`
(code ↦ outcome of the network round trip); the returned `Bool` records
whether the exchange was performed. All error paths return before the
exchange and leave the state untouched; on a successful exchange the access
token is replaced and the refresh token is replaced only when the response
carries one. -/
def get_redirect (q : RedirectQuery) (st : ClientTokState)
    (exchange : String → Except String TokenResp) :
    RedirectResp × ClientTokState × Bool :=
  match q.error with
  | some error =>
    let message := match q.error_description with
      | some d => "Authorization error: " ++ error ++ "(" ++ d ++ ")"
      | none => "Authorization error: " ++ error
    (.errorPage ("Authorization server returned an error: " ++ message), st, false)
  | none =>
    match q.code with
    | none => (.errorPage "Authorization server returned no code", st, false)
    | some code =>
      match q.state with
      | none => (.errorPage "Authorization server returned no state", st, false)
      | some redirect_state =>
        match st.code_grant_state with
        | none => (.errorPage "Client is missing state information", st, false)
        | some code_grant_state =>
          if redirect_state ≠ code_grant_state then
            (.errorPage ("Client and Authorization server state mismatch: expected "
              ++ code_grant_state ++ ", got " ++ redirect_state), st, false)
          else
            match exchange code with
            | .error err => (.errorPage ("Token exchange error: " ++ err), st, true)
            | .ok tok =>
              let st1 := { st with access_token := some tok.access_token }
              let st2 := match tok.refresh_token with
                | some rt => { st1 with refresh_token := some rt }
                | none => st1
              (.redirectHome, st2, true)

/-- Outcome of the refresh handler: `panic` embeds the `unwrap()` of a `None`
refresh token, `err` the `Err((StatusCode::BAD_REQUEST, msg))` response,
`ok` the redirect to `/home`. -/
inductive RefreshOutcome where
  | panic
  | err (msg : String)
  | ok
deriving DecidableEq

/-- Embedding of `Client::post_refresh` (client.rs lines 306-333). The stored
refresh token is `unwrap`ped (panics when absent); on a failed exchange an
error is returned with the state untouched; on success the access token is
replaced and the stored refresh token is assigned the response field
unconditionally (`*refresh_token = token.refresh_token().cloned()`). -/
def post_refresh (st : ClientTokState)
    (exchange : String → Except String TokenResp) :
    RefreshOutcome × ClientTokState :=
  match st.refresh_token with
  | none => (.panic, st)
  | some rt =>
    match exchange rt with
    | .error e => (.err ("Token refresh error: " ++ e), st)
    | .ok tok =>
      (.ok, { st with access_token := some tok.access_token,
                      refresh_token := tok.refresh_token })

/-! ## Authorization server handlers (`authorization_server.rs`)

`get_authorize` and `post_token` inspect the request body parameters via
`unique_value` before dispatching into the oxide-auth flows; a request with
no body, a missing dispatch parameter, or an unrecognised value falls through
to `WebError::Endpoint(OAuthError::BadRequest)`. The flows themselves live in
the oxide-auth library; the embedding records only which flow was entered. -/

inductive AuthorizeResult where
  | enteredFlow
  | badRequest
deriving DecidableEq

/-- Embedding of `AuthorizationServer::get_authorize` (authorization_server.rs
lines 126-139): only a body carrying a unique `response_type` equal to
`"code"` enters the authorization flow (which begins by soliciting owner
consent); everything else is `BadRequest`. -/
def get_authorize (body : Option Params) : AuthorizeResult :=
  match body with
  | some params =>
    match unique_value params "response_type" with
    | some rt => if rt = "code" then .enteredFlow else .badRequest
    | none => .badRequest
  | none => .badRequest

inductive TokenDispatch where
  | accessTokenFlow
  | refreshFlow
  | badRequest
deriving DecidableEq

/-- Embedding of `AuthorizationServer::post_token` (authorization_server.rs
lines 143-165): dispatch on the unique `grant_type` body parameter. -/
def post_token (body : Option Params) : TokenDispatch :=
  match body with
  | some params =>
    match unique_value params "grant_type" with
    | some gt =>
      if gt = "authorization_code" then .accessTokenFlow
      else if gt = "refresh_token" then .refreshFlow
      else .badRequest
    | none => .badRequest
  | none => .badRequest

inductive OwnerConsent where
  | authorized (owner : String)
  | denied
  | inProgress
deriving DecidableEq

/-- Embedding of the auto-approve solicitor closure inside
`AuthorizationServer::post_consent` (authorization_server.rs lines 174-180):
`Authorized("user")` exactly when the request has a query whose unique
`allow` parameter is present, `Denied` otherwise. -/
def consent_decider (query : Option Params) : OwnerConsent :=
  match query with
  | some q => if (unique_value q "allow").isSome then .authorized "user" else .denied
  | none => .denied

/-! ## Client registration and redirect URI (`client.rs`)

`Client::new` derives the redirect URI it hands to the oauth2 client (used by
`authorize_url` and `exchange_code`, i.e. every flow step) from the port via
`redirect_uri_with_port`; `impl Into<RegistrarClient> for Client` registers
`self.redirect_uri()`, derived from the same port. -/

def redirect_uri_with_port (port : Nat) : String :=
  "http://localhost:" ++ toString port ++ "/redirect"

/-- The fields of `Client` relevant to registration: configuration plus the
redirect URI baked into the inner oauth2 client at construction. -/
structure ClientModel where
  id : String
  secret : Option String
  port : Nat
  scope : String
  inner_redirect_uri : String
deriving DecidableEq

/-- Embedding of `Client::new` (client.rs lines 78-110): the inner oauth2
client redirect URI is `redirect_uri_with_port port`. -/
def ClientModel.new (id : String) (secret : Option String) (port : Nat)
    (scope : String) : ClientModel :=
  { id := id, secret := secret, port := port, scope := scope,
    inner_redirect_uri := redirect_uri_with_port port }

/-- Embedding of `Client::redirect_uri`. -/
def ClientModel.redirect_uri (c : ClientModel) : String :=
  redirect_uri_with_port c.port

/-- The redirect URI recorded by `impl Into<RegistrarClient> for Client`
(client.rs lines 367-384): both the confidential and the public branch pass
`self.redirect_uri()`. -/
def ClientModel.registered_redirect_uri (c : ClientModel) : String :=
  c.redirect_uri

/-! ## Grants, the code store and the resource guard

The `Authorizer` (`AuthMap`) redeemed by the access-token flow and the
`resource_flow` validation live in the oxide-auth library, outside this
repository checkout; they are modelled from the spec (sections 4.2, 4.7 and
the data model) below. Scopes are finite permission sets compared by the
subset relation; a store guarded by a mutex in the source becomes explicit
state where each operation is a single atomic step. -/

structure Grant where
  client_id : String
  redirect_uri : String
  scope : List String
  owner_id : String
deriving DecidableEq

/-- A recorded authorization code: its grant, its expiry instant, and whether
it has been consumed. -/
structure CodeRecord where
  grant : Grant
  expiry : Nat
  used : Bool
deriving DecidableEq

abbrev CodeStore := List (String × CodeRecord)

def lookupCode : CodeStore → String → Option CodeRecord
  | [], _ => none
  | (k, r) :: rest, c => if k = c then some r else lookupCode rest c

def markUsed : CodeStore → String → CodeStore
  | [], _ => []
  | (k, r) :: rest, c =>
    (k, if k = c then { r with used := true } else r) :: markUsed rest c

inductive RedeemResult where
  | ok (g : Grant)
  | notFound
  | alreadyUsed
  | expired
  | redirectMismatch
deriving DecidableEq

def RedeemResult.isOk : RedeemResult → Bool
  | .ok _ => true
  | _ => false

/-- Modelled from the spec: `CodeStore.redeem` (spec section 4.2) — the
`Authorizer::extract` of oxide-auth's `AuthMap`, which is not part of this
checkout. The whole check-and-consume is one atomic step: a consumed code
fails with `AlreadyUsed`, an expired one with `Expired`, a presented redirect
URI differing from the recorded grant's fails closed with `RedirectMismatch`
without consuming the code, and otherwise the code is marked used in the same
step that returns the grant. -/
def redeem (s : CodeStore) (now : Nat) (code : String) (uri : String) :
    RedeemResult × CodeStore :=
  match lookupCode s code with
  | none => (.notFound, s)
  | some r =>
    if r.used then (.alreadyUsed, s)
    else if r.expiry < now then (.expired, s)
    else if uri ≠ r.grant.redirect_uri then (.redirectMismatch, s)
    else (.ok r.grant, markUsed s code)

/-- A sequence of redemption attempts `(now, code, uri)` executed one atomic
step at a time against the store: the interleaving of any set of concurrent
redeem calls, since each call holds the store lock for its whole step. -/
def redeemAll (s : CodeStore) : List (Nat × String × String) →
    List RedeemResult × CodeStore
  | [] => ([], s)
  | (now, c, u) :: rest =>
    let step := redeem s now c u
    let tail := redeemAll step.2 rest
    (step.1 :: tail.1, tail.2)

def countOk (rs : List RedeemResult) : Nat :=
  rs.countP (fun r => r.isOk)

/-! ## Token store and resource endpoint (`resource_server.rs`) -/

/-- A recorded access token: its grant and expiry. -/
structure TokenRecord where
  grant : Grant
  expiry : Nat
deriving DecidableEq

abbrev TokenStore := List (String × TokenRecord)

def lookupToken : TokenStore → String → Option TokenRecord
  | [], _ => none
  | (k, r) :: rest, t => if k = t then some r else lookupToken rest t

def scopeSubset (a b : List String) : Bool :=
  a.all (fun x => b.contains x)

inductive ResourceFailure where
  | missingToken
  | unknownToken
  | expiredToken
  | insufficientScope
deriving DecidableEq

/-- Modelled from the spec: `ResourceGuard.authorize` (spec section 4.7) —
the `resource_flow` of the oxide-auth library, not part of this checkout.
It extracts the bearer token, validates it against the token store, checks
the expiry, and checks that the required scope is a subset of the grant's
scope; each failure is distinguishable at this level. -/
def resourceGuard (issuer : TokenStore) (now : Nat) (required : List String)
    (bearer : Option String) : Except ResourceFailure Grant :=
  match bearer with
  | none => .error .missingToken
  | some tok =>
    match lookupToken issuer tok with
    | none => .error .unknownToken
    | some rec =>
      if rec.expiry < now then .error .expiredToken
      else if scopeSubset required rec.grant.scope then .ok rec.grant
      else .error .insufficientScope

/-- Embedding of `ResourceServer::resource` (resource_server.rs lines 40-54):
whatever the guard's failure, the handler collapses it to a bare
`StatusCode::UNAUTHORIZED` (401); on success it returns the resource body. -/
def resource (issuer : TokenStore) (now : Nat) (required : List String)
    (bearer : Option String) : Except Nat String :=
  match resourceGuard issuer now required bearer with
  | .error _ => .error 401
  | .ok _ => .ok "Super secret resource data"

/-! ## Example inputs used by witnesses -/

def exampleGrant : Grant :=
  { client_id := "local_client_id",
    redirect_uri := "http://localhost:8080/redirect",
    scope := ["default-scope"],
    owner_id := "user" }

def exampleCodeStore : CodeStore :=
  [("SplxlOBeZQQYbYS6WxSbIA", { grant := exampleGrant, expiry := 100, used := false })]

def exampleTokState : ClientTokState :=
  { code_grant_state := some "S1", access_token := some "T1", refresh_token := some "R1" }

def exampleTokenStore : TokenStore :=
  [("T1", { grant := exampleGrant, expiry := 100 })]

/-! ## Theorems -/

/-- C2: every callback to the client redirect endpoint in which the `error`
parameter is present, or the `code` parameter is absent, or the `state`
parameter differs from the stored anti-forgery state, makes `get_redirect`
fail closed: it returns an error response, performs no token-exchange call,
and leaves the stored access and refresh tokens unchanged. -/
theorem get_redirect_fails_closed (q : RedirectQuery) (st : ClientTokState)
    (exchange : String → Except String TokenResp)
    (h : q.error.isSome ∨ q.code = none ∨ q.state ≠ st.code_grant_state) :
    (∃ msg, (get_redirect q st exchange).1 = .errorPage msg) ∧
    (get_redirect q st exchange).2.2 = false ∧
    (get_redirect q st exchange).2.1.access_token = st.access_token ∧
    (get_redirect q st exchange).2.1.refresh_token = st.refresh_token := by
  obtain ⟨qe, qd, qc, qs⟩ := q
  cases qe with
  | some e => simp [get_redirect]
  | none =>
    cases qc with
    | none => simp [get_redirect]
    | some code =>
      cases qs with
      | none => simp [get_redirect]
      | some rs =>
        cases hcg : st.code_grant_state with
        | none => simp [get_redirect, hcg]
        | some cg =>
          by_cases hse : rs = cg
          · exfalso
            rcases h with h | h | h
            · simp at h
            · simp at h
            · simp [hcg, hse] at h
          · simp [get_redirect, hcg, hse]

/-- Witness for C2 at a concrete input: an upstream error parameter present. -/
theorem get_redirect_fails_closed_witness :
    ((RedirectQuery.mk (some "access_denied") none none none).error.isSome ∨
      (RedirectQuery.mk (some "access_denied") none none none).code = none ∨
      (RedirectQuery.mk (some "access_denied") none none none).state ≠
        exampleTokState.code_grant_state) ∧
    ((∃ msg, (get_redirect (RedirectQuery.mk (some "access_denied") none none none)
        exampleTokState (fun _ => Except.error "unused")).1 = .errorPage msg) ∧
     (get_redirect (RedirectQuery.mk (some "access_denied") none none none)
        exampleTokState (fun _ => Except.error "unused")).2.2 = false ∧
     (get_redirect (RedirectQuery.mk (some "access_denied") none none none)
        exampleTokState (fun _ => Except.error "unused")).2.1.access_token =
          exampleTokState.access_token ∧
     (get_redirect (RedirectQuery.mk (some "access_denied") none none none)
        exampleTokState (fun _ => Except.error "unused")).2.1.refresh_token =
          exampleTokState.refresh_token) :=
  ⟨Or.inl (by decide),
   get_redirect_fails_closed (RedirectQuery.mk (some "access_denied") none none none)
     exampleTokState (fun _ => Except.error "unused") (Or.inl (by decide))⟩

/-- C3: whenever the refresh exchange fails, `post_refresh` reports an error
to the caller and the whole client state — in particular the stored access
token and stored refresh token — keeps its prior value. -/
theorem post_refresh_failure_keeps_tokens (st : ClientTokState) (rt : String)
    (exchange : String → Except String TokenResp) (e : String)
    (hrt : st.refresh_token = some rt) (hex : exchange rt = .error e) :
    post_refresh st exchange = (.err ("Token refresh error: " ++ e), st) := by
  simp only [post_refresh, hrt, hex]

/-- Witness for C3 at a concrete input: a network failure during refresh. -/
theorem post_refresh_failure_keeps_tokens_witness :
    exampleTokState.refresh_token = some "R1" ∧
    (fun (_ : String) => (Except.error "connection refused" : Except String TokenResp)) "R1"
      = .error "connection refused" ∧
    post_refresh exampleTokState (fun _ => Except.error "connection refused")
      = (.err ("Token refresh error: " ++ "connection refused"), exampleTokState) :=
  ⟨by decide, rfl,
   post_refresh_failure_keeps_tokens exampleTokState "R1"
     (fun _ => Except.error "connection refused") "connection refused" (by decide) rfl⟩

/-- Counterexample to C4 as stated: with stored refresh token `R1` and a
successful refresh response carrying no refresh token, `post_refresh`
succeeds but the previously stored refresh token does not remain in place —
it is cleared, because the handler assigns the response field
unconditionally. -/
theorem post_refresh_clears_absent_refresh :
    (post_refresh exampleTokState (fun _ => Except.ok (TokenResp.mk "T2" none))).1
      = .ok ∧
    (post_refresh exampleTokState (fun _ => Except.ok (TokenResp.mk "T2" none))).2.refresh_token
      = none ∧
    ¬ (post_refresh exampleTokState
        (fun _ => Except.ok (TokenResp.mk "T2" none))).2.refresh_token = some "R1" := by
  refine ⟨rfl, rfl, by decide⟩

/-- C4 (amended): on a successful refresh, the stored access token is
replaced by the newly issued access token and the stored refresh token is
assigned the refresh token of the response: replaced when the response
carries one, cleared when it does not. -/
theorem post_refresh_success_sets_tokens (st : ClientTokState) (rt : String)
    (exchange : String → Except String TokenResp) (tok : TokenResp)
    (hrt : st.refresh_token = some rt) (hex : exchange rt = .ok tok) :
    post_refresh st exchange =
      (.ok, { st with access_token := some tok.access_token,
                      refresh_token := tok.refresh_token }) := by
  simp only [post_refresh, hrt, hex]

/-- Witness for the amended C4 at a concrete input: a rotated refresh token. -/
theorem post_refresh_success_sets_tokens_witness :
    exampleTokState.refresh_token = some "R1" ∧
    (fun (_ : String) => (Except.ok (TokenResp.mk "T2" (some "R2")) : Except String TokenResp)) "R1"
      = .ok (TokenResp.mk "T2" (some "R2")) ∧
    post_refresh exampleTokState (fun _ => Except.ok (TokenResp.mk "T2" (some "R2")))
      = (.ok, { exampleTokState with access_token := some "T2",
                                     refresh_token := some "R2" }) :=
  ⟨by decide, rfl,
   post_refresh_success_sets_tokens exampleTokState "R1"
     (fun _ => Except.ok (TokenResp.mk "T2" (some "R2"))) (TokenResp.mk "T2" (some "R2"))
     (by decide) rfl⟩

/-- C10: `post_refresh` panics (unwrap of `None`) exactly when no refresh
token is stored; under the precondition that one is stored, it never
panics. -/
theorem post_refresh_panics_without_refresh_token (st : ClientTokState)
    (exchange : String → Except String TokenResp) :
    (st.refresh_token = none → post_refresh st exchange = (.panic, st)) ∧
    (st.refresh_token ≠ none → (post_refresh st exchange).1 ≠ .panic) := by
  constructor
  · intro h
    unfold post_refresh
    rw [h]
  · intro h
    cases hrt : st.refresh_token with
    | none => exact absurd hrt h
    | some rt =>
      cases hex : exchange rt <;> simp [post_refresh, hrt, hex]

/-- Witness for C10 at a concrete input: empty client state panics. -/
theorem post_refresh_panics_without_refresh_token_witness :
    (ClientTokState.mk none none none).refresh_token = none ∧
    post_refresh (ClientTokState.mk none none none) (fun _ => Except.error "unused")
      = (.panic, ClientTokState.mk none none none) :=
  ⟨rfl,
   (post_refresh_panics_without_refresh_token (ClientTokState.mk none none none)
     (fun _ => Except.error "unused")).1 rfl⟩

/-- C6: a request to the authorization endpoint whose parameters lack a
`response_type` or carry a `response_type` other than `"code"` (including a
request with no parameters at all) is answered with `BadRequest` without
entering the authorization flow, hence without soliciting owner consent. -/
theorem get_authorize_bad_request (body : Option Params)
    (h : ∀ params, body = some params →
      unique_value params "response_type" ≠ some "code") :
    get_authorize body = .badRequest := by
  cases body with
  | none => rfl
  | some params =>
    have hp := h params rfl
    cases huv : unique_value params "response_type" with
    | none => simp [get_authorize, huv]
    | some rt =>
      have : rt ≠ "code" := by
        intro hc
        exact hp (by rw [huv, hc])
      simp [get_authorize, huv, this]

/-- Witness for C6 at a concrete input: `response_type=token`. -/
theorem get_authorize_bad_request_witness :
    (∀ params, (some [("response_type", "token")] : Option Params) = some params →
      unique_value params "response_type" ≠ some "code") ∧
    get_authorize (some [("response_type", "token")]) = .badRequest := by
  constructor
  · intro params hp
    cases Option.some.inj hp
    decide
  · exact get_authorize_bad_request (some [("response_type", "token")])
      (fun params hp => by cases Option.some.inj hp; decide)

/-- C7: the token endpoint dispatches to the authorization-code access-token
flow exactly when the unique `grant_type` body parameter is
`"authorization_code"`, to the refresh flow exactly when it is
`"refresh_token"`, and answers anything else — other values, a missing
`grant_type`, or no body parameters at all — with `BadRequest`. -/
theorem post_token_dispatch (body : Option Params) :
    (post_token body = .accessTokenFlow ↔
      ∃ params, body = some params ∧
        unique_value params "grant_type" = some "authorization_code") ∧
    (post_token body = .refreshFlow ↔
      ∃ params, body = some params ∧
        unique_value params "grant_type" = some "refresh_token") ∧
    (post_token body = .accessTokenFlow ∨ post_token body = .refreshFlow ∨
      post_token body = .badRequest) ∧
    post_token (none : Option Params) = .badRequest := by
  refine ⟨?_, ?_, ?_, rfl⟩
  · cases body with
    | none => simp [post_token]
    | some params =>
      cases huv : unique_value params "grant_type" with
      | none => simp [post_token, huv]
      | some gt =>
        by_cases h1 : gt = "authorization_code"
        · simp [post_token, huv, h1]
        · by_cases h2 : gt = "refresh_token" <;>
            simp [post_token, huv, h1, h2]
  · cases body with
    | none => simp [post_token]
    | some params =>
      cases huv : unique_value params "grant_type" with
      | none => simp [post_token, huv]
      | some gt =>
        by_cases h1 : gt = "authorization_code"
        · simp [post_token, huv, h1]
        · by_cases h2 : gt = "refresh_token" <;>
            simp [post_token, huv, h1, h2]
  · cases body with
    | none => simp [post_token]
    | some params =>
      cases huv : unique_value params "grant_type" with
      | none => simp [post_token, huv]
      | some gt =>
        by_cases h1 : gt = "authorization_code"
        · simp [post_token, huv, h1]
        · by_cases h2 : gt = "refresh_token" <;> simp [post_token, huv, h1, h2]

/-- Witness for C7 at concrete inputs: each dispatch value is reached. -/
theorem post_token_dispatch_witness :
    post_token (some [("grant_type", "authorization_code")]) = .accessTokenFlow ∧
    post_token (some [("grant_type", "refresh_token")]) = .refreshFlow ∧
    post_token (some [("grant_type", "password")]) = .badRequest :=
  ⟨(post_token_dispatch (some [("grant_type", "authorization_code")])).1.mpr
      ⟨[("grant_type", "authorization_code")], rfl, by decide⟩,
   (post_token_dispatch (some [("grant_type", "refresh_token")])).2.1.mpr
      ⟨[("grant_type", "refresh_token")], rfl, by decide⟩,
   by decide⟩

/-- C8: the auto-approve solicitor used by `post_consent` answers
`Authorized("user")` exactly when the request query carries the `allow`
parameter (with a unique value, per `unique_value`), and answers `Denied`
on every other request — one carrying only `deny`, one carrying neither
flag, or one with no query at all. -/
theorem consent_decider_allow_iff (query : Option Params) :
    (consent_decider query = .authorized "user" ↔
      ∃ q, query = some q ∧ (unique_value q "allow").isSome = true) ∧
    (consent_decider query = .authorized "user" ∨
      consent_decider query = .denied) := by
  cases query with
  | none => simp [consent_decider]
  | some q =>
    by_cases h : (unique_value q "allow").isSome <;> simp [consent_decider, h]

/-- Witness for C8 at concrete inputs: an `allow` query is authorized as
`"user"`, a `deny`-only query is denied. -/
theorem consent_decider_allow_iff_witness :
    consent_decider (some [("allow", "true")]) = .authorized "user" ∧
    consent_decider (some [("deny", "true")]) = .denied :=
  ⟨(consent_decider_allow_iff (some [("allow", "true")])).1.mpr
      ⟨[("allow", "true")], rfl, by decide⟩,
   by decide⟩

/-- C9: for every client configuration, the redirect URI registered with the
authorization server equals the redirect URI baked into the inner oauth2
client and presented in every flow step, both being
`http://localhost:{port}/redirect` derived from the configured port. -/
theorem client_redirect_uri_consistent (id : String) (secret : Option String)
    (port : Nat) (scope : String) :
    (ClientModel.new id secret port scope).registered_redirect_uri
      = (ClientModel.new id secret port scope).inner_redirect_uri ∧
    (ClientModel.new id secret port scope).inner_redirect_uri
      = redirect_uri_with_port port ∧
    redirect_uri_with_port port
      = "http://localhost:" ++ toString port ++ "/redirect" :=
  ⟨rfl, rfl, rfl⟩

/-- C5: every protected-resource request on which the bearer-token check
fails — whatever the failure — is answered with the single outcome 401
(Unauthorized), carrying no indication of which check failed; the resource
body is returned exactly when the request bears a token known to the issuer,
unexpired, whose grant's scope covers the required scope. -/
theorem resource_fails_closed (issuer : TokenStore) (now : Nat)
    (required : List String) (bearer : Option String) :
    (∀ f, resourceGuard issuer now required bearer = .error f →
      resource issuer now required bearer = .error 401) ∧
    (resource issuer now required bearer = .error 401 ∨
      resource issuer now required bearer = .ok "Super secret resource data") ∧
    (resource issuer now required bearer = .ok "Super secret resource data" ↔
      ∃ tok rec, bearer = some tok ∧ lookupToken issuer tok = some rec ∧
        ¬ rec.expiry < now ∧ scopeSubset required rec.grant.scope = true) := by
  refine ⟨?_, ?_, ?_⟩
  · intro f hf
    simp [resource, hf]
  · cases hg : resourceGuard issuer now required bearer <;> simp [resource, hg]
  · constructor
    · intro hok
      cases hb : bearer with
      | none => simp [resource, resourceGuard, hb] at hok
      | some tok =>
        cases hl : lookupToken issuer tok with
        | none => simp [resource, resourceGuard, hb, hl] at hok
        | some rec =>
          by_cases hex : rec.expiry < now
          · simp [resource, resourceGuard, hb, hl, hex] at hok
          · by_cases hs : scopeSubset required rec.grant.scope
            · exact ⟨tok, rec, rfl, hl, hex, hs⟩
            · simp [resource, resourceGuard, hb, hl, hex, hs] at hok
    · rintro ⟨tok, rec, hb, hl, hex, hs⟩
      simp [resource, resourceGuard, hb, hl, hex, hs]

/-- Witness for C5 at a concrete input: a request with no bearer token. -/
theorem resource_fails_closed_witness :
    resourceGuard exampleTokenStore 0 ["default-scope"] none = .error .missingToken ∧
    resource exampleTokenStore 0 ["default-scope"] none = .error 401 :=
  ⟨rfl, (resource_fails_closed exampleTokenStore 0 ["default-scope"] none).1 .missingToken rfl⟩

/-! ### Code-store lemmas for C1 -/

theorem lookupCode_markUsed_self (s : CodeStore) (c : String) :
    lookupCode (markUsed s c) c
      = (lookupCode s c).map (fun r => { r with used := true }) := by
  induction s with
  | nil => rfl
  | cons kr rest ih =>
    obtain ⟨k, r⟩ := kr
    by_cases hk : k = c
    · simp [markUsed, lookupCode, hk]
    · simpa [markUsed, lookupCode, hk] using ih

theorem lookupCode_markUsed_other (s : CodeStore) (c c' : String) (h : c' ≠ c) :
    lookupCode (markUsed s c) c' = lookupCode s c' := by
  induction s with
  | nil => rfl
  | cons kr rest ih =>
    obtain ⟨k, r⟩ := kr
    by_cases hk' : k = c'
    · subst hk'
      simp [markUsed, lookupCode, h]
    · simpa [markUsed, lookupCode, hk'] using ih

theorem redeem_of_used (s : CodeStore) (now : Nat) (c u : String) (r : CodeRecord)
    (hl : lookupCode s c = some r) (hu : r.used = true) :
    redeem s now c u = (.alreadyUsed, s) := by
  simp [redeem, hl, hu]

theorem redeem_store_cases (s : CodeStore) (now : Nat) (c u : String) :
    (redeem s now c u).2 = s ∨ (redeem s now c u).2 = markUsed s c := by
  unfold redeem
  cases lookupCode s c with
  | none => exact Or.inl rfl
  | some r =>
    by_cases h1 : r.used
    · simp [h1]
    · by_cases h2 : r.expiry < now
      · simp [h1, h2]
      · by_cases h3 : u ≠ r.grant.redirect_uri
        · simp [h1, h2, h3]
        · simp [h1, h2, h3]

theorem redeem_ok_inv (s s' : CodeStore) (now : Nat) (c u : String) (g : Grant)
    (h : redeem s now c u = (.ok g, s')) :
    ∃ r, lookupCode s c = some r ∧ r.used = false ∧ s' = markUsed s c := by
  unfold redeem at h
  cases hl : lookupCode s c with
  | none => rw [hl] at h; simp at h
  | some r =>
    rw [hl] at h
    by_cases h1 : r.used
    · simp [h1] at h
    · by_cases h2 : r.expiry < now
      · simp [h1, h2] at h
      · by_cases h3 : u = r.grant.redirect_uri
        · simp [h1, h2, h3] at h
          exact ⟨r, rfl, by simpa using h1, h.2.symm⟩
        · simp [h1, h2, h3] at h

theorem lookupCode_markUsed_used (s : CodeStore) (c c2 : String) (r : CodeRecord)
    (hl : lookupCode s c = some r) (hu : r.used = true) :
    ∃ r2, lookupCode (markUsed s c2) c = some r2 ∧ r2.used = true := by
  by_cases hcc : c = c2
  · subst hcc
    rw [lookupCode_markUsed_self, hl]
    exact ⟨{ r with used := true }, rfl, rfl⟩
  · rw [lookupCode_markUsed_other s c2 c hcc]
    exact ⟨r, hl, hu⟩

theorem redeem_ok_marks (s s' : CodeStore) (now : Nat) (c u : String) (g : Grant)
    (h : redeem s now c u = (.ok g, s')) :
    ∃ r, lookupCode s' c = some r ∧ r.used = true := by
  obtain ⟨r, hl, hu, hs⟩ := redeem_ok_inv s s' now c u g h
  subst hs
  rw [lookupCode_markUsed_self, hl]
  exact ⟨{ r with used := true }, rfl, rfl⟩

theorem redeem_preserves_used (s : CodeStore) (now : Nat) (c' u' c : String)
    (r : CodeRecord) (hl : lookupCode s c = some r) (hu : r.used = true) :
    ∃ r2, lookupCode (redeem s now c' u').2 c = some r2 ∧ r2.used = true := by
  rcases redeem_store_cases s now c' u' with h | h
  · rw [h]
    exact ⟨r, hl, hu⟩
  · rw [h]
    exact lookupCode_markUsed_used s c c' r hl hu

theorem redeemAll_preserves_used (attempts : List (Nat × String × String))
    (s : CodeStore) (c : String) (r : CodeRecord)
    (hl : lookupCode s c = some r) (hu : r.used = true) :
    ∃ r2, lookupCode (redeemAll s attempts).2 c = some r2 ∧ r2.used = true := by
  induction attempts generalizing s r with
  | nil => exact ⟨r, hl, hu⟩
  | cons a rest ih =>
    obtain ⟨now, c', u'⟩ := a
    obtain ⟨r2, hl2, hu2⟩ := redeem_preserves_used s now c' u' c r hl hu
    simpa [redeemAll] using ih (redeem s now c' u').2 r2 hl2 hu2

theorem countOk_zero_of_used (attempts : List (Nat × String)) (s : CodeStore)
    (code : String) (r : CodeRecord)
    (hl : lookupCode s code = some r) (hu : r.used = true) :
    countOk (redeemAll s (attempts.map (fun p => (p.1, code, p.2)))).1 = 0 := by
  induction attempts generalizing s r with
  | nil => rfl
  | cons a rest ih =>
    obtain ⟨n, u⟩ := a
    have hred := redeem_of_used s n code u r hl hu
    simp [redeemAll, hred, countOk, List.countP_cons, RedeemResult.isOk]
    simpa [countOk] using ih s r hl hu

theorem countOk_le_one (attempts : List (Nat × String)) (s : CodeStore)
    (code : String) :
    countOk (redeemAll s (attempts.map (fun p => (p.1, code, p.2)))).1 ≤ 1 := by
  induction attempts generalizing s with
  | nil => simp [redeemAll, countOk]
  | cons a rest ih =>
    obtain ⟨n, u⟩ := a
    rcases hred : redeem s n code u with ⟨res, s'⟩
    cases res with
    | ok g =>
      obtain ⟨r, hl, hu⟩ := redeem_ok_marks s s' n code u g hred
      have h0 := countOk_zero_of_used rest s' code r hl hu
      simp [redeemAll, hred, countOk, List.countP_cons, RedeemResult.isOk]
      simpa [countOk] using h0
    | notFound =>
      have := ih s'
      simp [redeemAll, hred, countOk, List.countP_cons, RedeemResult.isOk]
      simpa [countOk] using this
    | alreadyUsed =>
      have := ih s'
      simp [redeemAll, hred, countOk, List.countP_cons, RedeemResult.isOk]
      simpa [countOk] using this
    | expired =>
      have := ih s'
      simp [redeemAll, hred, countOk, List.countP_cons, RedeemResult.isOk]
      simpa [countOk] using this
    | redirectMismatch =>
      have := ih s'
      simp [redeemAll, hred, countOk, List.countP_cons, RedeemResult.isOk]
      simpa [countOk] using this

theorem redeem_valid_ok (s : CodeStore) (now : Nat) (code : String)
    (r : CodeRecord) (hl : lookupCode s code = some r) (hu : r.used = false)
    (he : ¬ r.expiry < now) :
    redeem s now code r.grant.redirect_uri = (.ok r.grant, markUsed s code) := by
  simp [redeem, hl, hu, he]

theorem countOk_eq_one_of_first_valid (s : CodeStore) (now : Nat) (code : String)
    (r : CodeRecord) (rest : List (Nat × String))
    (hl : lookupCode s code = some r) (hu : r.used = false)
    (he : ¬ r.expiry < now) :
    countOk (redeemAll s ((now, code, r.grant.redirect_uri) ::
      rest.map (fun p => (p.1, code, p.2)))).1 = 1 := by
  have hred := redeem_valid_ok s now code r hl hu he
  have hmarked : ∃ r2, lookupCode (markUsed s code) code = some r2 ∧ r2.used = true := by
    rw [lookupCode_markUsed_self, hl]
    exact ⟨{ r with used := true }, rfl, rfl⟩
  obtain ⟨r2, hl2, hu2⟩ := hmarked
  have h0 := countOk_zero_of_used rest (markUsed s code) code r2 hl2 hu2
  simp [redeemAll, hred, countOk, List.countP_cons, RedeemResult.isOk]
  simpa [countOk] using h0

/-- C1: code redemption is exactly-once. Whenever a `redeem` call on a code
succeeds, the code is marked used in the store returned by that same atomic
step, and every subsequent `redeem` call on the same code — after any
interleaved sequence of further redemption attempts — fails with
`AlreadyUsed`. Under concurrent redemption attempts on one code, i.e. any
interleaving of atomic redeem steps on it, at most one call succeeds, and
exactly one does when the code is recorded, unconsumed and unexpired at the
first attempt. -/
theorem redeem_exactly_once (s : CodeStore) (now : Nat) (code uri : String) :
    (∀ g s', redeem s now code uri = (.ok g, s') →
      (∃ r, lookupCode s' code = some r ∧ r.used = true) ∧
      (∀ attempts now2 uri2,
        (redeem (redeemAll s' attempts).2 now2 code uri2).1 = .alreadyUsed)) ∧
    (∀ attempts : List (Nat × String),
      countOk (redeemAll s (attempts.map (fun p => (p.1, code, p.2)))).1 ≤ 1) ∧
    (∀ r, lookupCode s code = some r → r.used = false → ¬ r.expiry < now →
      ∀ rest : List (Nat × String),
        countOk (redeemAll s ((now, code, r.grant.redirect_uri) ::
          rest.map (fun p => (p.1, code, p.2)))).1 = 1) := by
  refine ⟨?_, ?_, ?_⟩
  · intro g s' h
    obtain ⟨r, hl, hu⟩ := redeem_ok_marks s s' now code uri g h
    refine ⟨⟨r, hl, hu⟩, ?_⟩
    intro attempts now2 uri2
    obtain ⟨r2, hl2, hu2⟩ := redeemAll_preserves_used attempts s' code r hl hu
    rw [redeem_of_used (redeemAll s' attempts).2 now2 code uri2 r2 hl2 hu2]
  · intro attempts
    exact countOk_le_one attempts s code
  · intro r hl hu he rest
    exact countOk_eq_one_of_first_valid s now code r rest hl hu he

/-- Witness for C1 at a concrete input: the example store's single code is
redeemed once with the registered redirect URI, and a second redeem of the
same code fails with `AlreadyUsed`. -/
theorem redeem_exactly_once_witness :
    redeem exampleCodeStore 0 "SplxlOBeZQQYbYS6WxSbIA" "http://localhost:8080/redirect"
      = (.ok exampleGrant, markUsed exampleCodeStore "SplxlOBeZQQYbYS6WxSbIA") ∧
    (∃ r, lookupCode (markUsed exampleCodeStore "SplxlOBeZQQYbYS6WxSbIA")
        "SplxlOBeZQQYbYS6WxSbIA" = some r ∧ r.used = true) ∧
    (redeem (redeemAll (markUsed exampleCodeStore "SplxlOBeZQQYbYS6WxSbIA") []).2
      1 "SplxlOBeZQQYbYS6WxSbIA" "http://localhost:8080/redirect").1 = .alreadyUsed := by
  have hred : redeem exampleCodeStore 0 "SplxlOBeZQQYbYS6WxSbIA"
      "http://localhost:8080/redirect"
      = (.ok exampleGrant, markUsed exampleCodeStore "SplxlOBeZQQYbYS6WxSbIA") := by
    decide
  have happ := (redeem_exactly_once exampleCodeStore 0 "SplxlOBeZQQYbYS6WxSbIA"
    "http://localhost:8080/redirect").1 exampleGrant
    (markUsed exampleCodeStore "SplxlOBeZQQYbYS6WxSbIA") hred
  exact ⟨hred, happ.1, happ.2 [] 1 "http://localhost:8080/redirect"⟩

end OxideAuth
